import Mathlib

/-!
Shallow embedding of `financial_projections/doctype/financial_projection/financial_projection.py`.

Conventions of the embedding:
* Python floats are modelled by `Rat` (exact rational arithmetic; every
  operation the source performs — `+ - * / **` with integer exponents — is
  rational on rational inputs).
* `flt` mirrors frappe's `flt`: a missing (`None`) numeric field coerces to 0,
  so optional numeric fields are `Option Rat` and `flt` is `Option.getD · 0`.
* Python truthiness on an optional numeric (`if self.x and ...`,
  `self.x or 1`) is modelled by `optTruthy` / `pyOr`: `None` and `0` are falsy.
* String fields that the source tests with `if not field:` are `String`,
  with the empty string standing for both `None` and `""`.
* The `carried_instances` dict (keys absent ↦ treated as 0 by the source via
  the explicit `if key not in` initialisation and `.get(key, 0)`) is modelled
  as a total function `String → Rat` defaulting to 0.
* The per-document mutable state of `calculate_projections` (the growing
  `self.monthly_projections` child table and the local accumulators) is an
  explicit `EngineState` threaded through the month loop; the `for month_num
  in range(1, total_months + 1)` loop is the structural recursion `runMonths`.
* `month_date` is omitted from the row model: it is a pure function of
  `start_date` and `month_number` and no claim mentions it.
-/

/- The arithmetic of `Rat` is hidden behind `irreducible` markers upstream;
re-expose it so that concrete runs of the embedded engine can be settled by
kernel reduction. This changes no definition, only unfolding hints. -/
set_option allowUnsafeReducibility true in
attribute [semireducible] Rat.add Rat.mul Rat.sub Rat.inv

/-- frappe's `flt` on an optional numeric: `None` becomes 0. -/
def flt (o : Option Rat) : Rat := o.getD 0

/-- Python truthiness of an optional numeric: `None` and `0` are falsy. -/
def optTruthy (o : Option Rat) : Bool :=
  match o with
  | none => false
  | some x => decide (x ≠ 0)

/-- Python `x or d` for an optional integer field: `None` and `0` give `d`. -/
def pyOrInt (o : Option Int) (d : Int) : Int :=
  match o with
  | none => d
  | some x => if x = 0 then d else x

/-- Python `x or d` for an optional natural field: `None` and `0` give `d`. -/
def pyOrNat (o : Option Nat) (d : Nat) : Nat :=
  match o with
  | none => d
  | some x => if x = 0 then d else x

/-- A row of the `revenue_assumptions` child table. -/
structure RevenueLine where
  revenue_type : String
  calculation_type : String
  monthly_new_sales : Option Rat
  price_per_unit : Option Rat
  annual_price_increase : Option Rat
  implementation_months : Option Nat
deriving DecidableEq

/-- A row of the `cost_assumptions` child table. -/
structure CostLine where
  cost_type : String
  calculation_type : String
  cost_per_unit : Option Rat
  cost_percentage : Option Rat
  related_revenue_type : String
deriving DecidableEq

/-- A row of the `staff_assumptions` child table. -/
structure StaffLine where
  position_title : String
  monthly_salary : Option Rat
  monthly_benefits : Option Rat
  vehicle_allowance : Option Rat
  annual_increase : Option Rat
  start_month : Option Int
deriving DecidableEq

/-- A row of the `capex_assumptions` child table. -/
structure CapexLine where
  asset_name : String
  cost : Option Rat
  purchase_month : Option Int
  purchase_year : Option Int
deriving DecidableEq

/-- A row of the `monthly_projections` child table (all fields the engine
sets, except `month_date`, see the header comment). -/
structure MonthlyRow where
  month_number : Nat
  year_number : Nat
  revenue : Rat
  cost_of_revenue : Rat
  gross_profit : Rat
  operating_expenses : Rat
  capex : Rat
  net_income : Rat
  cash_receipts : Rat
  cash_payments : Rat
  net_cash_flow : Rat
  cash_balance : Rat
  cumulative_revenue : Rat
  cumulative_cost : Rat
  cumulative_gross_profit : Rat
deriving DecidableEq

/-- The `FinancialProjection` document: scalar parameters, the four input
child tables, the output child table and the nine summary fields. -/
structure FinancialProjection where
  projection_years : Option Nat
  cash_on_hand_start : Option Rat
  cash_receipt_delay : Option Rat
  cost_of_revenue_delay : Option Rat
  opex_delay : Option Rat
  capex_delay : Option Rat
  revenue_assumptions : List RevenueLine
  cost_assumptions : List CostLine
  staff_assumptions : List StaffLine
  capex_assumptions : List CapexLine
  monthly_projections : List MonthlyRow
  total_revenue_y1 : Rat
  total_revenue_y2 : Rat
  total_revenue_y3 : Rat
  total_gross_profit_y1 : Rat
  total_gross_profit_y2 : Rat
  total_gross_profit_y3 : Rat
  total_net_income_y1 : Rat
  total_net_income_y2 : Rat
  total_net_income_y3 : Rat
deriving DecidableEq

/-- The `carried_instances` dict: absent keys read as 0. -/
def CarriedState := String → Rat

/-- `validate_delays` (source lines 19-24): `frappe.throw` is modelled as
returning the thrown message. -/
def validate_delays (d : FinancialProjection) : Except String Unit :=
  if optTruthy d.opex_delay ∧ (flt d.opex_delay < 0 ∨ flt d.opex_delay > 6) then
    Except.error "OPEX Delay must be between 0 and 6 months"
  else if optTruthy d.capex_delay ∧ (flt d.capex_delay < 0 ∨ flt d.capex_delay > 6) then
    Except.error "CAPEX Delay must be between 0 and 6 months"
  else
    Except.ok ()

/-- `get_monthly_instances` (source lines 214-228): add this line's
`monthly_new_sales` to the shared carried entry for its `revenue_type` and
return the updated cumulative count, together with the updated state. -/
def get_monthly_instances (revenue_line : RevenueLine) (carried : CarriedState) :
    Rat × CarriedState :=
  let key := revenue_line.revenue_type
  let new_sales := flt revenue_line.monthly_new_sales
  let carried' : CarriedState := fun k => if k = key then carried key + new_sales else carried k
  (carried' key, carried')

/-- `get_monthly_price` (source lines 236-244). -/
def get_monthly_price (revenue_line : RevenueLine) (year_num : Nat) : Rat :=
  let base_price := flt revenue_line.price_per_unit
  if optTruthy revenue_line.annual_price_increase ∧ year_num > 1 then
    base_price * (1 + flt revenue_line.annual_price_increase / 100) ^ (year_num - 1)
  else
    base_price

/-- The `monthly_revenue` computed for one revenue line in the body of
`calculate_monthly_revenue` (source lines 122-135), given the `instances`
value returned by `get_monthly_instances`. -/
def revenue_amount (line : RevenueLine) (instances : Rat) (year_num month_in_year : Nat) : Rat :=
  let price := get_monthly_price line year_num
  if line.calculation_type = "Recurring" then
    instances * price
  else if line.calculation_type = "One-Time" then
    match line.implementation_months with
    | some im =>
        if im > 0 then
          if month_in_year ≤ im then (instances * price) / (im : Rat) else 0
        else
          if month_in_year = 1 then instances * price else 0
    | none => if month_in_year = 1 then instances * price else 0
  else
    0

/-- One iteration of the loop of `calculate_monthly_revenue`
(source lines 111-137): skip a line with empty `revenue_type`, otherwise
update the carried instances and add this line's `monthly_revenue`. -/
def revenueStep (year_num month_in_year : Nat) (acc : Rat × CarriedState)
    (line : RevenueLine) : Rat × CarriedState :=
  if line.revenue_type = "" then acc
  else
    let p := get_monthly_instances line acc.2
    (acc.1 + revenue_amount line p.1 year_num month_in_year, p.2)

/-- `calculate_monthly_revenue` (source lines 107-139); the unused
`month_num` parameter of the source is kept. -/
def calculate_monthly_revenue (d : FinancialProjection) (_month_num year_num month_in_year : Nat)
    (carried : CarriedState) : Rat × CarriedState :=
  d.revenue_assumptions.foldl (revenueStep year_num month_in_year) (0, carried)

/-- `get_cost_instances` (source lines 230-234). -/
def get_cost_instances (cost_line : CostLine) (carried : CarriedState) : Rat :=
  if cost_line.related_revenue_type ≠ "" then carried cost_line.related_revenue_type else 0

/-- `get_related_revenue` (source lines 246-251): a positional lookup into
the already-built `monthly_projections` list; the source's `revenue_type`
parameter is unused there and kept here. -/
def get_related_revenue (rows : List MonthlyRow) (month_num : Nat)
    (_revenue_type : String) : Rat :=
  if rows ≠ [] ∧ rows.length ≥ month_num then
    if month_num ≤ rows.length then
      ((rows.get? (month_num - 1)).map (fun r => r.revenue)).getD 0
    else 0
  else 0

/-- One iteration of the loop of `calculate_monthly_cost`
(source lines 145-164); `rows` is the `self.monthly_projections` list as it
stands when the iteration runs. -/
def costStep (rows : List MonthlyRow) (month_num : Nat) (carried : CarriedState)
    (acc : Rat) (line : CostLine) : Rat :=
  if line.cost_type = "" then acc
  else
    let instances := get_cost_instances line carried
    let monthly_cost :=
      if line.calculation_type = "Per Instance" then
        instances * flt line.cost_per_unit
      else if line.calculation_type = "Fixed Monthly" then
        flt line.cost_per_unit
      else if line.calculation_type = "Percentage of Revenue" then
        get_related_revenue rows month_num line.related_revenue_type
          * (flt line.cost_percentage / 100)
      else 0
    acc + monthly_cost

/-- `calculate_monthly_cost` (source lines 141-166); the unused `year_num`
and `month_in_year` parameters of the source are kept. -/
def calculate_monthly_cost (d : FinancialProjection) (rows : List MonthlyRow)
    (month_num _year_num _month_in_year : Nat) (carried : CarriedState) : Rat :=
  d.cost_assumptions.foldl (costStep rows month_num carried) 0

/-- One iteration of the loop of `calculate_monthly_opex`
(source lines 172-191). -/
def opexStep (month_num year_num : Nat) (acc : Rat) (line : StaffLine) : Rat :=
  if line.position_title = "" then acc
  else
    let start_month := pyOrInt line.start_month 1
    if (month_num : Int) ≥ start_month then
      let base_salary := flt line.monthly_salary
      let benefits := flt line.monthly_benefits
      let vehicle := flt line.vehicle_allowance
      let base_salary :=
        if optTruthy line.annual_increase ∧ year_num > 1 then
          base_salary * (1 + flt line.annual_increase / 100) ^ (year_num - 1)
        else base_salary
      acc + (base_salary + benefits + vehicle)
    else acc

/-- `calculate_monthly_opex` (source lines 168-193); the unused
`month_in_year` parameter is kept. -/
def calculate_monthly_opex (d : FinancialProjection)
    (month_num year_num _month_in_year : Nat) : Rat :=
  d.staff_assumptions.foldl (opexStep month_num year_num) 0

/-- One iteration of the loop of `calculate_monthly_capex`
(source lines 199-210). -/
def capexStep (month_num : Nat) (acc : Rat) (line : CapexLine) : Rat :=
  if line.asset_name = "" then acc
  else
    let purchase_month := pyOrInt line.purchase_month 1
    let purchase_year := pyOrInt line.purchase_year 1
    let target_month := (purchase_year - 1) * 12 + purchase_month
    if (month_num : Int) = target_month then acc + flt line.cost else acc

/-- `calculate_monthly_capex` (source lines 195-212); the unused `year_num`
and `month_in_year` parameters are kept. -/
def calculate_monthly_capex (d : FinancialProjection)
    (month_num _year_num _month_in_year : Nat) : Rat :=
  d.capex_assumptions.foldl (capexStep month_num) 0

/-- `calculate_cash_receipts` (source lines 253-262). -/
def calculate_cash_receipts (d : FinancialProjection) (month_num : Nat) (revenue : Rat) : Rat :=
  let delay := flt d.cash_receipt_delay
  if delay = 0 then revenue
  else if (month_num : Rat) > delay then revenue else 0

/-- `calculate_cash_payments_cor` (source lines 264-271). -/
def calculate_cash_payments_cor (d : FinancialProjection) (month_num : Nat) (cost : Rat) : Rat :=
  let delay := flt d.cost_of_revenue_delay
  if delay = 0 then cost
  else if (month_num : Rat) > delay then cost else 0

/-- `calculate_cash_payments_opex` (source lines 273-280). -/
def calculate_cash_payments_opex (d : FinancialProjection) (month_num : Nat) (opex : Rat) : Rat :=
  let delay := flt d.opex_delay
  if delay = 0 then opex
  else if (month_num : Rat) > delay then opex else 0

/-- `calculate_cash_payments_capex` (source lines 282-289). -/
def calculate_cash_payments_capex (d : FinancialProjection) (month_num : Nat) (capex : Rat) : Rat :=
  let delay := flt d.capex_delay
  if delay = 0 then capex
  else if (month_num : Rat) > delay then capex else 0

/-- The mutable state of `calculate_projections` (source lines 29-43):
the rows appended so far, the local cumulative accumulators, the running
cash balance and the `carried_instances` dict. -/
structure EngineState where
  rows : List MonthlyRow
  cumulative_revenue : Rat
  cumulative_cost : Rat
  cumulative_gross_profit : Rat
  cumulative_opex : Rat
  cumulative_net_income : Rat
  cash_balance : Rat
  carried : CarriedState

/-- The row appended by one iteration of the month loop of
`calculate_projections` (source lines 46-102): the local variables of the
loop body and the row they are stored into (source lines 86-102). -/
def monthRow (d : FinancialProjection) (st : EngineState) (month_num : Nat) : MonthlyRow :=
  let year_num := (month_num - 1) / 12 + 1
  let month_in_year := (month_num - 1) % 12 + 1
  let rc := calculate_monthly_revenue d month_num year_num month_in_year st.carried
  let revenue := rc.1
  let carried := rc.2
  let cost_of_revenue := calculate_monthly_cost d st.rows month_num year_num month_in_year carried
  let gross_profit := revenue - cost_of_revenue
  let opex := calculate_monthly_opex d month_num year_num month_in_year
  let capex := calculate_monthly_capex d month_num year_num month_in_year
  let net_income := gross_profit - opex
  let cash_receipts := calculate_cash_receipts d month_num revenue
  let cash_payments_cor := calculate_cash_payments_cor d month_num cost_of_revenue
  let cash_payments_opex := calculate_cash_payments_opex d month_num opex
  let cash_payments_capex := calculate_cash_payments_capex d month_num capex
  let net_cash_flow := cash_receipts - cash_payments_cor - cash_payments_opex - cash_payments_capex
  { month_number := month_num
    year_number := year_num
    revenue := revenue
    cost_of_revenue := cost_of_revenue
    gross_profit := gross_profit
    operating_expenses := opex
    capex := capex
    net_income := net_income
    cash_receipts := cash_receipts
    cash_payments := cash_payments_cor + cash_payments_opex + cash_payments_capex
    net_cash_flow := net_cash_flow
    cash_balance := st.cash_balance + net_cash_flow
    cumulative_revenue := st.cumulative_revenue + revenue
    cumulative_cost := st.cumulative_cost + cost_of_revenue
    cumulative_gross_profit := st.cumulative_gross_profit + gross_profit }

/-- The state after one iteration of the month loop of
`calculate_projections`: the row is appended and the accumulators take the
values the loop body assigned (which are exactly the ones stored in the
row, except the carried instances, updated by the revenue pass, and the
opex/net-income accumulators not stored in the row). -/
def monthStep (d : FinancialProjection) (st : EngineState) (month_num : Nat) : EngineState :=
  let year_num := (month_num - 1) / 12 + 1
  let month_in_year := (month_num - 1) % 12 + 1
  let row := monthRow d st month_num
  { rows := st.rows ++ [row]
    cumulative_revenue := row.cumulative_revenue
    cumulative_cost := row.cumulative_cost
    cumulative_gross_profit := row.cumulative_gross_profit
    cumulative_opex := st.cumulative_opex + row.operating_expenses
    cumulative_net_income := st.cumulative_net_income + row.net_income
    cash_balance := row.cash_balance
    carried := (calculate_monthly_revenue d month_num year_num month_in_year st.carried).2 }

/-- The `for month_num in range(1, total_months + 1)` loop: run
`remaining` iterations starting at month `m`. -/
def runMonths (d : FinancialProjection) (m : Nat) (remaining : Nat) (st : EngineState) :
    EngineState :=
  match remaining with
  | 0 => st
  | Nat.succ n => runMonths d (m + 1) n (monthStep d st m)

/-- The initial engine state (source lines 29-43): cleared rows, zero
accumulators, `cash_balance = flt(cash_on_hand_start)`, empty
`carried_instances`. -/
def initState (d : FinancialProjection) : EngineState :=
  { rows := []
    cumulative_revenue := 0
    cumulative_cost := 0
    cumulative_gross_profit := 0
    cumulative_opex := 0
    cumulative_net_income := 0
    cash_balance := flt d.cash_on_hand_start
    carried := fun _ => 0 }

/-- `update_summary_fields` (source lines 291-320): the `{1: 0, 2: 0, 3: 0}`
dicts are specialised into a nine-field fold; a row whose `year_number` is
not a key of the dicts (`if year in year_revenue`) is skipped. -/
structure YearTotals where
  r1 : Rat
  r2 : Rat
  r3 : Rat
  g1 : Rat
  g2 : Rat
  g3 : Rat
  n1 : Rat
  n2 : Rat
  n3 : Rat

/-- One iteration of the `for row in self.monthly_projections` loop of
`update_summary_fields` (source lines 302-307). -/
def summaryStep (acc : YearTotals) (row : MonthlyRow) : YearTotals :=
  if row.year_number = 1 then
    { acc with r1 := acc.r1 + row.revenue
               g1 := acc.g1 + row.gross_profit
               n1 := acc.n1 + row.net_income }
  else if row.year_number = 2 then
    { acc with r2 := acc.r2 + row.revenue
               g2 := acc.g2 + row.gross_profit
               n2 := acc.n2 + row.net_income }
  else if row.year_number = 3 then
    { acc with r3 := acc.r3 + row.revenue
               g3 := acc.g3 + row.gross_profit
               n3 := acc.n3 + row.net_income }
  else acc

/-- `update_summary_fields` (source lines 291-320): on an empty row list it
returns early leaving every summary field untouched; otherwise it overwrites
the nine summary fields with the per-year totals. -/
def update_summary_fields (d : FinancialProjection) : FinancialProjection :=
  if d.monthly_projections = [] then d
  else
    let t := d.monthly_projections.foldl summaryStep
      { r1 := 0, r2 := 0, r3 := 0, g1 := 0, g2 := 0, g3 := 0, n1 := 0, n2 := 0, n3 := 0 }
    { d with total_revenue_y1 := t.r1
             total_revenue_y2 := t.r2
             total_revenue_y3 := t.r3
             total_gross_profit_y1 := t.g1
             total_gross_profit_y2 := t.g2
             total_gross_profit_y3 := t.g3
             total_net_income_y1 := t.n1
             total_net_income_y2 := t.n2
             total_net_income_y3 := t.n3 }

/-- `calculate_projections` (source lines 26-105): clear the rows, run the
month loop over `total_months = (projection_years or 3) * 12` months, store
the produced rows and update the summary fields. -/
def calculate_projections (d : FinancialProjection) : FinancialProjection :=
  let total_months := pyOrNat d.projection_years 3 * 12
  let final := runMonths d 1 total_months (initState d)
  update_summary_fields { d with monthly_projections := final.rows }

/-- The document save lifecycle relevant to the claims: `validate`
(which calls `validate_delays` and aborts the save on `frappe.throw`) runs
before `before_save` (which calls `calculate_projections`). -/
def run_save (d : FinancialProjection) : Except String FinancialProjection :=
  match validate_delays d with
  | Except.error e => Except.error e
  | Except.ok _ => Except.ok (calculate_projections d)

lemma flt_eq_zero_of_not_truthy {o : Option Rat} (h : optTruthy o = false) : flt o = 0 := by
  cases o with
  | none => rfl
  | some x =>
    simp only [optTruthy, decide_eq_false_iff_not, not_not] at h
    simpa [flt] using h

/-- C10 -/
theorem c10_empty_key_lines_skipped :
    (∀ (line : CostLine) (rows : List MonthlyRow) (m : Nat) (c : CarriedState) (acc : Rat),
        line.cost_type = "" → costStep rows m c acc line = acc) ∧
    (∀ (line : StaffLine) (m y : Nat) (acc : Rat),
        line.position_title = "" → opexStep m y acc line = acc) ∧
    (∀ (line : CapexLine) (m : Nat) (acc : Rat),
        line.asset_name = "" → capexStep m acc line = acc) := by
  refine ⟨?_, ?_, ?_⟩ <;> intros <;> simp [costStep, opexStep, capexStep, *]

def c10CostLine : CostLine :=
  { cost_type := "", calculation_type := "Fixed Monthly", cost_per_unit := some 999,
    cost_percentage := some 10, related_revenue_type := "A" }

def c10StaffLine : StaffLine :=
  { position_title := "", monthly_salary := some 5000, monthly_benefits := some 100,
    vehicle_allowance := some 50, annual_increase := some 10, start_month := some 1 }

def c10CapexLine : CapexLine :=
  { asset_name := "", cost := some 777, purchase_month := some 1, purchase_year := some 1 }

/-- Witness for C10. -/
theorem c10_empty_key_lines_skipped_witness :
    costStep [] 1 (fun _ => 0) 7 c10CostLine = 7 ∧
    opexStep 1 1 5 c10StaffLine = 5 ∧
    capexStep 1 3 c10CapexLine = 3 :=
  ⟨c10_empty_key_lines_skipped.1 c10CostLine [] 1 (fun _ => 0) 7 rfl,
   c10_empty_key_lines_skipped.2.1 c10StaffLine 1 1 5 rfl,
   c10_empty_key_lines_skipped.2.2 c10CapexLine 1 3 rfl⟩

lemma delay_threshold_rule (q : Rat) (m : Nat) (a : Rat) :
    (q = 0 → (if q = 0 then a else if (m : Rat) > q then a else 0) = a) ∧
    (0 < q → (if q = 0 then a else if (m : Rat) > q then a else 0) =
      if (m : Rat) > q then a else 0) := by
  constructor
  · intro h
    rw [if_pos h]
  · intro h
    rw [if_neg (ne_of_gt h)]

/-- C2: for each of the four accrual quantities with delay parameter D,
the cash amount for month m equals the accrual amount when D = 0, and when
D > 0 it equals the accrual amount if month_num > D and 0 otherwise (a
threshold rule, not a shifted lookback). -/
theorem c2_cash_delay_threshold (d : FinancialProjection) (m : Nat) (a : Rat) :
    ((flt d.cash_receipt_delay = 0 → calculate_cash_receipts d m a = a) ∧
     (0 < flt d.cash_receipt_delay →
       calculate_cash_receipts d m a =
         if (m : Rat) > flt d.cash_receipt_delay then a else 0)) ∧
    ((flt d.cost_of_revenue_delay = 0 → calculate_cash_payments_cor d m a = a) ∧
     (0 < flt d.cost_of_revenue_delay →
       calculate_cash_payments_cor d m a =
         if (m : Rat) > flt d.cost_of_revenue_delay then a else 0)) ∧
    ((flt d.opex_delay = 0 → calculate_cash_payments_opex d m a = a) ∧
     (0 < flt d.opex_delay →
       calculate_cash_payments_opex d m a =
         if (m : Rat) > flt d.opex_delay then a else 0)) ∧
    ((flt d.capex_delay = 0 → calculate_cash_payments_capex d m a = a) ∧
     (0 < flt d.capex_delay →
       calculate_cash_payments_capex d m a =
         if (m : Rat) > flt d.capex_delay then a else 0)) :=
  ⟨delay_threshold_rule (flt d.cash_receipt_delay) m a,
   delay_threshold_rule (flt d.cost_of_revenue_delay) m a,
   delay_threshold_rule (flt d.opex_delay) m a,
   delay_threshold_rule (flt d.capex_delay) m a⟩

def c2Doc : FinancialProjection :=
  { projection_years := some 1
    cash_on_hand_start := none
    cash_receipt_delay := some 2
    cost_of_revenue_delay := some 2
    opex_delay := none
    capex_delay := some 2
    revenue_assumptions := []
    cost_assumptions := []
    staff_assumptions := []
    capex_assumptions := []
    monthly_projections := []
    total_revenue_y1 := 0, total_revenue_y2 := 0, total_revenue_y3 := 0
    total_gross_profit_y1 := 0, total_gross_profit_y2 := 0, total_gross_profit_y3 := 0
    total_net_income_y1 := 0, total_net_income_y2 := 0, total_net_income_y3 := 0 }

/-- Witness for C2. -/
theorem c2_cash_delay_threshold_witness :
    calculate_cash_receipts c2Doc 1 9 = 0 ∧
    calculate_cash_payments_cor c2Doc 5 9 = 9 ∧
    calculate_cash_payments_opex c2Doc 1 9 = 9 ∧
    calculate_cash_payments_capex c2Doc 1 9 = 0 :=
  ⟨((c2_cash_delay_threshold c2Doc 1 9).1.2 (by decide)).trans (by decide),
   ((c2_cash_delay_threshold c2Doc 5 9).2.1.2 (by decide)).trans (by decide),
   (c2_cash_delay_threshold c2Doc 1 9).2.2.1.1 (by decide),
   ((c2_cash_delay_threshold c2Doc 1 9).2.2.2.2 (by decide)).trans (by decide)⟩

/-- C6: a staffing line with non-empty `position_title` active in month m
(month_num ≥ start_month, defaulting to 1) contributes
monthly_salary × (1 + annual_increase/100)^(year_num−1) + monthly_benefits
+ vehicle_allowance; the exponent is 0 in year 1, and benefits and vehicle
allowance never compound. -/
theorem c6_staff_salary_compounding (line : StaffLine) (m y : Nat) (acc : Rat)
    (h1 : line.position_title ≠ "") (h2 : pyOrInt line.start_month 1 ≤ (m : Int)) :
    opexStep m y acc line =
      acc + (flt line.monthly_salary * (1 + flt line.annual_increase / 100) ^ (y - 1)
        + flt line.monthly_benefits + flt line.vehicle_allowance) := by
  unfold opexStep
  rw [if_neg h1, if_pos h2]
  dsimp only
  by_cases hinc : optTruthy line.annual_increase = true
  · by_cases hy : y > 1
    · rw [if_pos ⟨hinc, hy⟩]
    · rw [if_neg (fun hc => hy hc.2)]
      have hy1 : y - 1 = 0 := by omega
      rw [hy1, pow_zero]; ring
  · have h0 : flt line.annual_increase = 0 :=
      flt_eq_zero_of_not_truthy (by simpa using hinc)
    rw [if_neg (fun hc => hinc hc.1), h0]
    norm_num

def c6StaffLine : StaffLine :=
  { position_title := "Eng", monthly_salary := some 1000, monthly_benefits := some 200,
    vehicle_allowance := some 50, annual_increase := some 10, start_month := some 2 }

/-- Witness for C6. -/
theorem c6_staff_salary_compounding_witness :
    opexStep 14 2 0 c6StaffLine = 0 + (1000 * (1 + 10 / 100) ^ (2 - 1) + 200 + 50) :=
  c6_staff_salary_compounding c6StaffLine 14 2 0 (by decide) (by decide)

/-- C5: a revenue line with non-empty `revenue_type`, calculation type
"One-Time" and `implementation_months` = im > 0 contributes
(instances × price) / im when month_in_year = ((month_num−1) % 12)+1 ≤ im
and 0 otherwise, so the spread restarts in the first im months of every
year; the line's new sales are added to the shared carried entry first. -/
theorem c5_one_time_spread (line : RevenueLine) (m y im : Nat) (acc : Rat)
    (carried : CarriedState)
    (h1 : line.revenue_type ≠ "") (h2 : line.calculation_type = "One-Time")
    (h3 : line.implementation_months = some im) (h4 : 0 < im) :
    revenueStep y ((m - 1) % 12 + 1) (acc, carried) line =
      (acc + (if (m - 1) % 12 + 1 ≤ im then
          ((carried line.revenue_type + flt line.monthly_new_sales)
            * get_monthly_price line y) / (im : Rat)
        else 0),
       fun k => if k = line.revenue_type then
          carried line.revenue_type + flt line.monthly_new_sales
        else carried k) := by
  unfold revenueStep revenue_amount get_monthly_instances
  rw [if_neg h1]
  simp [h2, h3, h4]

def c5RevLine : RevenueLine :=
  { revenue_type := "P", calculation_type := "One-Time", monthly_new_sales := some 2,
    price_per_unit := some 300, annual_price_increase := none, implementation_months := some 3 }

/-- Witness for C5. -/
theorem c5_one_time_spread_witness :
    revenueStep 2 ((14 - 1) % 12 + 1) (0, fun _ => 0) c5RevLine =
      (0 + (if (14 - 1) % 12 + 1 ≤ 3 then
          ((0 + flt c5RevLine.monthly_new_sales) * get_monthly_price c5RevLine 2) / (3 : Rat)
        else 0),
       fun k => if k = c5RevLine.revenue_type then 0 + flt c5RevLine.monthly_new_sales else 0) :=
  c5_one_time_spread c5RevLine 14 2 3 0 (fun _ => 0) (by decide) rfl rfl (by decide)

lemma optTruthy_iff {o : Option Rat} : optTruthy o = true ↔ flt o ≠ 0 := by
  cases o <;> simp [optTruthy, flt]

lemma summary_foldl_proj (proj : YearTotals → Rat) (metric : MonthlyRow → Rat) (ynum : Nat)
    (hupd : ∀ t row, proj (summaryStep t row) =
      proj t + if row.year_number = ynum then metric row else 0) :
    ∀ (rows : List MonthlyRow) (t : YearTotals),
      proj (rows.foldl summaryStep t) =
        proj t + ((rows.filter (fun r => r.year_number = ynum)).map metric).sum := by
  intro rows
  induction rows with
  | nil => intro t; simp
  | cons r rs ih =>
    intro t
    simp only [List.foldl_cons, List.filter_cons]
    rw [ih, hupd]
    by_cases h : r.year_number = ynum
    · simp [h]; ring
    · simp [h]

/-- C7: the nine summary fields are the per-year sums of `revenue`,
`gross_profit` and `net_income` over exactly the rows with `year_number`
1, 2 and 3; rows with any other `year_number` are counted nowhere. -/
theorem c7_summary_fields (d : FinancialProjection) (h : d.monthly_projections ≠ []) :
    ((update_summary_fields d).total_revenue_y1 =
      ((d.monthly_projections.filter (fun r => r.year_number = 1)).map
        (fun r => r.revenue)).sum) ∧
    ((update_summary_fields d).total_revenue_y2 =
      ((d.monthly_projections.filter (fun r => r.year_number = 2)).map
        (fun r => r.revenue)).sum) ∧
    ((update_summary_fields d).total_revenue_y3 =
      ((d.monthly_projections.filter (fun r => r.year_number = 3)).map
        (fun r => r.revenue)).sum) ∧
    ((update_summary_fields d).total_gross_profit_y1 =
      ((d.monthly_projections.filter (fun r => r.year_number = 1)).map
        (fun r => r.gross_profit)).sum) ∧
    ((update_summary_fields d).total_gross_profit_y2 =
      ((d.monthly_projections.filter (fun r => r.year_number = 2)).map
        (fun r => r.gross_profit)).sum) ∧
    ((update_summary_fields d).total_gross_profit_y3 =
      ((d.monthly_projections.filter (fun r => r.year_number = 3)).map
        (fun r => r.gross_profit)).sum) ∧
    ((update_summary_fields d).total_net_income_y1 =
      ((d.monthly_projections.filter (fun r => r.year_number = 1)).map
        (fun r => r.net_income)).sum) ∧
    ((update_summary_fields d).total_net_income_y2 =
      ((d.monthly_projections.filter (fun r => r.year_number = 2)).map
        (fun r => r.net_income)).sum) ∧
    ((update_summary_fields d).total_net_income_y3 =
      ((d.monthly_projections.filter (fun r => r.year_number = 3)).map
        (fun r => r.net_income)).sum) := by
  unfold update_summary_fields
  rw [if_neg h]
  refine ⟨?_, ?_, ?_, ?_, ?_, ?_, ?_, ?_, ?_⟩ <;> dsimp only
  · rw [summary_foldl_proj (fun t => t.r1) (fun r => r.revenue) 1
      (by intro t row; unfold summaryStep; split_ifs <;> simp_all)]
    simp
  · rw [summary_foldl_proj (fun t => t.r2) (fun r => r.revenue) 2
      (by intro t row; unfold summaryStep; split_ifs <;> simp_all)]
    simp
  · rw [summary_foldl_proj (fun t => t.r3) (fun r => r.revenue) 3
      (by intro t row; unfold summaryStep; split_ifs <;> simp_all)]
    simp
  · rw [summary_foldl_proj (fun t => t.g1) (fun r => r.gross_profit) 1
      (by intro t row; unfold summaryStep; split_ifs <;> simp_all)]
    simp
  · rw [summary_foldl_proj (fun t => t.g2) (fun r => r.gross_profit) 2
      (by intro t row; unfold summaryStep; split_ifs <;> simp_all)]
    simp
  · rw [summary_foldl_proj (fun t => t.g3) (fun r => r.gross_profit) 3
      (by intro t row; unfold summaryStep; split_ifs <;> simp_all)]
    simp
  · rw [summary_foldl_proj (fun t => t.n1) (fun r => r.net_income) 1
      (by intro t row; unfold summaryStep; split_ifs <;> simp_all)]
    simp
  · rw [summary_foldl_proj (fun t => t.n2) (fun r => r.net_income) 2
      (by intro t row; unfold summaryStep; split_ifs <;> simp_all)]
    simp
  · rw [summary_foldl_proj (fun t => t.n3) (fun r => r.net_income) 3
      (by intro t row; unfold summaryStep; split_ifs <;> simp_all)]
    simp

def emptyDoc : FinancialProjection :=
  { projection_years := some 1
    cash_on_hand_start := none
    cash_receipt_delay := none
    cost_of_revenue_delay := none
    opex_delay := none
    capex_delay := none
    revenue_assumptions := []
    cost_assumptions := []
    staff_assumptions := []
    capex_assumptions := []
    monthly_projections := []
    total_revenue_y1 := 0, total_revenue_y2 := 0, total_revenue_y3 := 0
    total_gross_profit_y1 := 0, total_gross_profit_y2 := 0, total_gross_profit_y3 := 0
    total_net_income_y1 := 0, total_net_income_y2 := 0, total_net_income_y3 := 0 }

def c7Row1 : MonthlyRow :=
  { month_number := 1, year_number := 1, revenue := 100, cost_of_revenue := 60,
    gross_profit := 40, operating_expenses := 10, capex := 0, net_income := 30,
    cash_receipts := 100, cash_payments := 70, net_cash_flow := 30, cash_balance := 30,
    cumulative_revenue := 100, cumulative_cost := 60, cumulative_gross_profit := 40 }

def c7Row2 : MonthlyRow :=
  { month_number := 49, year_number := 5, revenue := 7, cost_of_revenue := 1,
    gross_profit := 6, operating_expenses := 2, capex := 0, net_income := 4,
    cash_receipts := 7, cash_payments := 3, net_cash_flow := 4, cash_balance := 34,
    cumulative_revenue := 107, cumulative_cost := 61, cumulative_gross_profit := 46 }

def c7Doc : FinancialProjection :=
  { emptyDoc with monthly_projections := [c7Row1, c7Row2] }

/-- Witness for C7: year-5 row is excluded from every summary field. -/
theorem c7_summary_fields_witness :
    (update_summary_fields c7Doc).total_revenue_y1 = 100 ∧
    (update_summary_fields c7Doc).total_net_income_y3 = 0 :=
  ⟨((c7_summary_fields c7Doc (by decide)).1).trans (by decide),
   ((c7_summary_fields c7Doc (by decide)).2.2.2.2.2.2.2.2).trans (by decide)⟩

/-- C8: the save pipeline rejects the document (no rows are produced)
exactly when `opex_delay` or `capex_delay` lies outside [0, 6] — unset and
0 never raise — and when it accepts, the result is the calculated
projection. -/
theorem c8_delay_validation (d : FinancialProjection) :
    ((∀ d', run_save d ≠ Except.ok d') ↔
      (flt d.opex_delay < 0 ∨ 6 < flt d.opex_delay ∨
       flt d.capex_delay < 0 ∨ 6 < flt d.capex_delay)) ∧
    (∀ d', run_save d = Except.ok d' → d' = calculate_projections d) := by
  have hA : (optTruthy d.opex_delay = true ∧
      (flt d.opex_delay < 0 ∨ flt d.opex_delay > 6)) ↔
      (flt d.opex_delay < 0 ∨ 6 < flt d.opex_delay) := by
    constructor
    · rintro ⟨-, h⟩
      exact h
    · intro h
      refine ⟨optTruthy_iff.mpr ?_, h⟩
      rcases h with h | h
      · exact ne_of_lt h
      · exact ne_of_gt (lt_trans (by norm_num) h)
  have hB : (optTruthy d.capex_delay = true ∧
      (flt d.capex_delay < 0 ∨ flt d.capex_delay > 6)) ↔
      (flt d.capex_delay < 0 ∨ 6 < flt d.capex_delay) := by
    constructor
    · rintro ⟨-, h⟩
      exact h
    · intro h
      refine ⟨optTruthy_iff.mpr ?_, h⟩
      rcases h with h | h
      · exact ne_of_lt h
      · exact ne_of_gt (lt_trans (by norm_num) h)
  by_cases hA' : optTruthy d.opex_delay = true ∧
      (flt d.opex_delay < 0 ∨ flt d.opex_delay > 6)
  · have hrs : run_save d = Except.error "OPEX Delay must be between 0 and 6 months" := by
      unfold run_save validate_delays
      rw [if_pos hA']
    have hout : flt d.opex_delay < 0 ∨ 6 < flt d.opex_delay ∨
        flt d.capex_delay < 0 ∨ 6 < flt d.capex_delay :=
      (hA.mp hA').imp (fun h => h) (fun h => Or.inl h)
    have hno : ∀ d', run_save d ≠ Except.ok d' := by
      intro d' hok
      rw [hrs] at hok
      exact Except.noConfusion hok
    exact ⟨⟨fun _ => hout, fun _ => hno⟩, fun d' hok => absurd hok (hno d')⟩
  · by_cases hB' : optTruthy d.capex_delay = true ∧
        (flt d.capex_delay < 0 ∨ flt d.capex_delay > 6)
    · have hrs : run_save d = Except.error "CAPEX Delay must be between 0 and 6 months" := by
        unfold run_save validate_delays
        rw [if_neg hA', if_pos hB']
      have hout : flt d.opex_delay < 0 ∨ 6 < flt d.opex_delay ∨
          flt d.capex_delay < 0 ∨ 6 < flt d.capex_delay :=
        Or.inr (Or.inr (hB.mp hB'))
      have hno : ∀ d', run_save d ≠ Except.ok d' := by
        intro d' hok
        rw [hrs] at hok
        exact Except.noConfusion hok
      exact ⟨⟨fun _ => hout, fun _ => hno⟩, fun d' hok => absurd hok (hno d')⟩
    · have hrs : run_save d = Except.ok (calculate_projections d) := by
        unfold run_save validate_delays
        rw [if_neg hA', if_neg hB']
      have hinA : ¬ (flt d.opex_delay < 0 ∨ flt d.opex_delay > 6) := fun h => hA' (hA.mpr h)
      have hinB : ¬ (flt d.capex_delay < 0 ∨ flt d.capex_delay > 6) := fun h => hB' (hB.mpr h)
      have hin : ¬ (flt d.opex_delay < 0 ∨ 6 < flt d.opex_delay ∨
          flt d.capex_delay < 0 ∨ 6 < flt d.capex_delay) := by
        push_neg at hinA hinB ⊢
        exact ⟨hinA.1, hinA.2, hinB.1, hinB.2⟩
      refine ⟨⟨fun hcon => absurd hrs (hcon _), fun hout => absurd hout hin⟩, fun d' hok => ?_⟩
      rw [hrs] at hok
      exact (Except.ok.inj hok).symm

def c8BadDoc : FinancialProjection := { emptyDoc with opex_delay := some 7 }

def c8GoodDoc : FinancialProjection :=
  { emptyDoc with opex_delay := some 3, capex_delay := some 6 }

/-- Witness for C8: delay 7 rejects the save, delays 3 and 6 let it
proceed to the calculation. -/
theorem c8_delay_validation_witness :
    run_save c8BadDoc ≠ Except.ok (calculate_projections c8BadDoc) ∧
    calculate_projections c8GoodDoc = calculate_projections c8GoodDoc :=
  ⟨(c8_delay_validation c8BadDoc).1.mpr (by decide) (calculate_projections c8BadDoc),
   (c8_delay_validation c8GoodDoc).2 (calculate_projections c8GoodDoc) rfl⟩

/-- C9: two revenue lines sharing a non-empty `revenue_type` update one
shared carried entry in list order: the first line's amount is computed
from the shared count right after its own sales are added (excluding the
second line's current-month sales), the second line's amount from the
count after both, and the month leaves the shared entry increased by both
lines' sales. -/
theorem c9_shared_revenue_type_order (d : FinancialProjection) (l1 l2 : RevenueLine)
    (hd : d.revenue_assumptions = [l1, l2]) (t : String)
    (h1 : l1.revenue_type = t) (h2 : l2.revenue_type = t) (ht : t ≠ "")
    (m y miy : Nat) (carried : CarriedState) :
    calculate_monthly_revenue d m y miy carried =
      (0 + revenue_amount l1 (carried t + flt l1.monthly_new_sales) y miy
         + revenue_amount l2 (carried t + flt l1.monthly_new_sales + flt l2.monthly_new_sales)
             y miy,
       fun k => if k = t then carried t + flt l1.monthly_new_sales + flt l2.monthly_new_sales
         else carried k) := by
  subst h1
  unfold calculate_monthly_revenue
  rw [hd]
  simp only [List.foldl_cons, List.foldl_nil]
  unfold revenueStep get_monthly_instances
  rw [if_neg ht, if_neg (h2 ▸ ht)]
  dsimp only
  rw [h2, if_pos rfl, if_pos rfl]
  congr 1
  funext k
  by_cases hk : k = l1.revenue_type
  · simp [hk]
  · simp [hk]

def c9Line1 : RevenueLine :=
  { revenue_type := "S", calculation_type := "Recurring", monthly_new_sales := some 3,
    price_per_unit := some 10, annual_price_increase := none, implementation_months := none }

def c9Line2 : RevenueLine :=
  { revenue_type := "S", calculation_type := "Recurring", monthly_new_sales := some 5,
    price_per_unit := some 20, annual_price_increase := none, implementation_months := none }

def c9Doc : FinancialProjection :=
  { emptyDoc with revenue_assumptions := [c9Line1, c9Line2] }

/-- Witness for C9. -/
theorem c9_shared_revenue_type_order_witness :
    calculate_monthly_revenue c9Doc 1 1 1 (fun _ => 0) =
      (0 + revenue_amount c9Line1 (0 + flt c9Line1.monthly_new_sales) 1 1
         + revenue_amount c9Line2
             (0 + flt c9Line1.monthly_new_sales + flt c9Line2.monthly_new_sales) 1 1,
       fun k => if k = "S" then 0 + flt c9Line1.monthly_new_sales + flt c9Line2.monthly_new_sales
         else 0) :=
  c9_shared_revenue_type_order c9Doc c9Line1 c9Line2 rfl "S" rfl rfl (by decide) 1 1 1
    (fun _ => 0)

/-- The cash invariant maintained by the month loop. -/
def CashInv (start : Rat) (st : EngineState) : Prop :=
  st.cash_balance = start + (st.rows.map (fun r => r.net_cash_flow)).sum ∧
  ∀ i r, st.rows[i]? = some r →
    r.cash_balance = start + ((st.rows.take (i + 1)).map (fun x => x.net_cash_flow)).sum ∧
    r.net_cash_flow = r.cash_receipts - r.cash_payments

lemma monthRow_cash_balance (d : FinancialProjection) (st : EngineState) (m : Nat) :
    (monthRow d st m).cash_balance = st.cash_balance + (monthRow d st m).net_cash_flow := rfl

lemma monthRow_ncf (d : FinancialProjection) (st : EngineState) (m : Nat) :
    (monthRow d st m).net_cash_flow =
      (monthRow d st m).cash_receipts - (monthRow d st m).cash_payments := by
  unfold monthRow
  dsimp only
  ring

lemma monthStep_rows (d : FinancialProjection) (st : EngineState) (m : Nat) :
    (monthStep d st m).rows = st.rows ++ [monthRow d st m] := rfl

lemma monthStep_cash_balance (d : FinancialProjection) (st : EngineState) (m : Nat) :
    (monthStep d st m).cash_balance = (monthRow d st m).cash_balance := rfl

lemma cash_inv_step (d : FinancialProjection) (start : Rat) (st : EngineState) (m : Nat)
    (h : CashInv start st) : CashInv start (monthStep d st m) := by
  obtain ⟨hbal, hidx⟩ := h
  constructor
  · rw [monthStep_cash_balance, monthRow_cash_balance, monthStep_rows, hbal]
    simp [List.map_append]
    ring
  · intro i r hr
    rw [monthStep_rows] at hr ⊢
    by_cases hi : i < st.rows.length
    · rw [List.getElem?_append_left hi] at hr
      have htake : (st.rows ++ [monthRow d st m]).take (i + 1) = st.rows.take (i + 1) := by
        rw [List.take_append_eq_append_take, Nat.sub_eq_zero_of_le hi, List.take_zero,
          List.append_nil]
      rw [htake]
      exact hidx i r hr
    · push_neg at hi
      rw [List.getElem?_append_right hi] at hr
      have hi2 : i - st.rows.length = 0 := by
        by_contra hne
        have h1 : (1 : Nat) ≤ i - st.rows.length := Nat.one_le_iff_ne_zero.mpr hne
        rw [List.getElem?_eq_none (by simpa using h1)] at hr
        exact Option.noConfusion hr
      rw [hi2] at hr
      simp only [List.getElem?_cons_zero, Option.some.injEq] at hr
      subst hr
      refine ⟨?_, monthRow_ncf d st m⟩
      rw [monthRow_cash_balance, hbal]
      have hlen : (st.rows ++ [monthRow d st m]).length ≤ i + 1 := by
        simp
        omega
      rw [List.take_of_length_le hlen]
      simp [List.map_append]
      ring

lemma runMonths_preserves (d : FinancialProjection) (P : EngineState → Prop)
    (hstep : ∀ st m, P st → P (monthStep d st m)) :
    ∀ (n m : Nat) (st : EngineState), P st → P (runMonths d m n st) := by
  intro n
  induction n with
  | zero => intro m st h; exact h
  | succ k ih => intro m st h; exact ih (m + 1) (monthStep d st m) (hstep st m h)

lemma usf_keeps_rows (x : FinancialProjection) :
    (update_summary_fields x).monthly_projections = x.monthly_projections := by
  unfold update_summary_fields
  split <;> rfl

lemma calc_rows (d : FinancialProjection) :
    (calculate_projections d).monthly_projections =
      (runMonths d 1 (pyOrNat d.projection_years 3 * 12) (initState d)).rows := by
  unfold calculate_projections
  rw [usf_keeps_rows]

/-- C3: every produced row's `cash_balance` equals
`flt cash_on_hand_start` plus the sum of `net_cash_flow` over the rows up
to and including it, and every row's `net_cash_flow` equals its
`cash_receipts` minus its `cash_payments` (the sum of the three payment
components stored by the engine). -/
theorem c3_cash_balance_running_sum (d : FinancialProjection) (i : Nat) (r : MonthlyRow)
    (h : (calculate_projections d).monthly_projections[i]? = some r) :
    r.cash_balance = flt d.cash_on_hand_start +
      (((calculate_projections d).monthly_projections.take (i + 1)).map
        (fun x => x.net_cash_flow)).sum ∧
    r.net_cash_flow = r.cash_receipts - r.cash_payments := by
  rw [calc_rows] at h ⊢
  have hinit : CashInv (flt d.cash_on_hand_start) (initState d) := by
    constructor
    · simp [initState]
    · intro j s hs
      simp [initState] at hs
  have hfin := runMonths_preserves d (CashInv (flt d.cash_on_hand_start))
    (fun st m hp => cash_inv_step d _ st m hp) (pyOrNat d.projection_years 3 * 12) 1
    (initState d) hinit
  exact hfin.2 i r h

def c3RevLine : RevenueLine :=
  { revenue_type := "R", calculation_type := "Recurring", monthly_new_sales := some 2,
    price_per_unit := some 50, annual_price_increase := none, implementation_months := none }

def c3CostLine : CostLine :=
  { cost_type := "F", calculation_type := "Fixed Monthly", cost_per_unit := some 30,
    cost_percentage := none, related_revenue_type := "" }

def c3Doc : FinancialProjection :=
  { emptyDoc with
    cash_on_hand_start := some 50
    cash_receipt_delay := some 1
    revenue_assumptions := [c3RevLine]
    cost_assumptions := [c3CostLine] }

def c3Dummy : MonthlyRow :=
  { month_number := 0, year_number := 0, revenue := 0, cost_of_revenue := 0,
    gross_profit := 0, operating_expenses := 0, capex := 0, net_income := 0,
    cash_receipts := 0, cash_payments := 0, net_cash_flow := 0, cash_balance := 0,
    cumulative_revenue := 0, cumulative_cost := 0, cumulative_gross_profit := 0 }

/-- Witness for C3. -/
theorem c3_cash_balance_running_sum_witness :
    ((calculate_projections c3Doc).monthly_projections.getD 1 c3Dummy).cash_balance =
      flt c3Doc.cash_on_hand_start +
        (((calculate_projections c3Doc).monthly_projections.take (1 + 1)).map
          (fun x => x.net_cash_flow)).sum ∧
    ((calculate_projections c3Doc).monthly_projections.getD 1 c3Dummy).net_cash_flow =
      ((calculate_projections c3Doc).monthly_projections.getD 1 c3Dummy).cash_receipts -
        ((calculate_projections c3Doc).monthly_projections.getD 1 c3Dummy).cash_payments :=
  c3_cash_balance_running_sum c3Doc 1
    ((calculate_projections c3Doc).monthly_projections.getD 1 c3Dummy) (by decide)

/-- The input fields of a document: everything `calculate_projections`
reads (it never reads `monthly_projections` or the summary fields). -/
def inputsOf (d : FinancialProjection) :=
  (d.projection_years, d.cash_on_hand_start, d.cash_receipt_delay, d.cost_of_revenue_delay,
   d.opex_delay, d.capex_delay, d.revenue_assumptions, d.cost_assumptions,
   d.staff_assumptions, d.capex_assumptions)

lemma monthStep_congr {d1 d2 : FinancialProjection} (h : inputsOf d1 = inputsOf d2) :
    monthStep d1 = monthStep d2 := by
  cases d1
  cases d2
  simp only [inputsOf, Prod.mk.injEq] at h
  obtain ⟨h1, h2, h3, h4, h5, h6, h7, h8, h9, h10⟩ := h
  subst h1 h2 h3 h4 h5 h6 h7 h8 h9 h10
  rfl

lemma initState_congr {d1 d2 : FinancialProjection}
    (h : d1.cash_on_hand_start = d2.cash_on_hand_start) : initState d1 = initState d2 := by
  unfold initState
  rw [h]

lemma runMonths_congr {d1 d2 : FinancialProjection} (h : monthStep d1 = monthStep d2) :
    ∀ (n m : Nat) (st : EngineState), runMonths d1 m n st = runMonths d2 m n st := by
  intro n
  induction n with
  | zero => intro m st; rfl
  | succ k ih =>
    intro m st
    show runMonths d1 (m + 1) k (monthStep d1 st m) = runMonths d2 (m + 1) k (monthStep d2 st m)
    rw [h]
    exact ih (m + 1) (monthStep d2 st m)

lemma inputs_set_rows (d : FinancialProjection) (rows : List MonthlyRow) :
    inputsOf { d with monthly_projections := rows } = inputsOf d := rfl

lemma usf_keeps_inputs (x : FinancialProjection) :
    inputsOf (update_summary_fields x) = inputsOf x := by
  unfold update_summary_fields
  split <;> rfl

lemma set_rows_self (x : FinancialProjection) (v : List MonthlyRow)
    (h : x.monthly_projections = v) : { x with monthly_projections := v } = x := by
  cases x
  cases h
  rfl

lemma usf_idem (x : FinancialProjection) :
    update_summary_fields (update_summary_fields x) = update_summary_fields x := by
  obtain ⟨py, ch, crd, cord, od, cd, ra, ca, sa, xa, mp, s1, s2, s3, s4, s5, s6, s7, s8, s9⟩ := x
  by_cases h : mp = []
  · simp [update_summary_fields, h]
  · simp [update_summary_fields, h]

lemma calc_unfold (x y : FinancialProjection) (h : inputsOf x = inputsOf y) :
    calculate_projections x =
      update_summary_fields { x with monthly_projections :=
        (runMonths y 1 (pyOrNat y.projection_years 3 * 12) (initState y)).rows } := by
  unfold calculate_projections
  dsimp only
  have hpy : x.projection_years = y.projection_years := congrArg (fun t => t.1) h
  have hch : x.cash_on_hand_start = y.cash_on_hand_start := congrArg (fun t => t.2.1) h
  rw [runMonths_congr (monthStep_congr h), hpy, initState_congr hch]

/-- C4: the engine discards any previously produced rows (its output does
not depend on the `monthly_projections` field it starts from, and it
restarts from a fresh empty carried state), so running it twice yields an
identical document: identical row sequence and identical summary fields. -/
theorem c4_rerun_no_hidden_state (d : FinancialProjection) (rows : List MonthlyRow) :
    calculate_projections { d with monthly_projections := rows } = calculate_projections d ∧
    calculate_projections (calculate_projections d) = calculate_projections d := by
  constructor
  · rw [calc_unfold { d with monthly_projections := rows } d (inputs_set_rows d rows),
      calc_unfold d d rfl]
  · have h1 : inputsOf (calculate_projections d) = inputsOf d := by
      unfold calculate_projections
      rw [usf_keeps_inputs]
      exact inputs_set_rows d _
    rw [calc_unfold (calculate_projections d) d h1]
    rw [set_rows_self (calculate_projections d) _ (calc_rows d)]
    rw [calc_unfold d d rfl]
    exact usf_idem _

def c1RevLine : RevenueLine :=
  { revenue_type := "A", calculation_type := "Recurring", monthly_new_sales := some 1,
    price_per_unit := some 100, annual_price_increase := none, implementation_months := none }

def c1CostLine : CostLine :=
  { cost_type := "C", calculation_type := "Percentage of Revenue", cost_per_unit := none,
    cost_percentage := some 50, related_revenue_type := "A" }

def c1Doc : FinancialProjection :=
  { emptyDoc with
    revenue_assumptions := [c1RevLine]
    cost_assumptions := [c1CostLine] }

/-- C1 counterexample: in `c1Doc` the sole cost line is a
"Percentage of Revenue" line with non-empty `cost_type`, so month 1's
`cost_of_revenue` is exactly that line's contribution; the produced month-1
row has revenue 100 and `cost_of_revenue` 0, while the claim predicts
100 × 50/100 = 50. -/
theorem c1_percentage_cost_counterexample :
    ((calculate_projections c1Doc).monthly_projections.map
      (fun r => (r.revenue, r.cost_of_revenue))).head? = some (100, 0) ∧
    ¬ ((0 : Rat) = 100 * (flt c1CostLine.cost_percentage / 100)) := by
  constructor
  · decide
  · decide

lemma costStep_pct_out_of_range (line : CostLine) (rows : List MonthlyRow) (m : Nat)
    (carried : CarriedState) (acc : Rat)
    (h2 : line.calculation_type = "Percentage of Revenue") (h3 : rows.length < m) :
    costStep rows m carried acc line = acc := by
  unfold costStep
  by_cases h1 : line.cost_type = ""
  · rw [if_pos h1]
  · rw [if_neg h1]
    dsimp only
    rw [h2]
    have hg : get_related_revenue rows m line.related_revenue_type = 0 := by
      unfold get_related_revenue
      rw [if_neg]
      rintro ⟨-, hge⟩
      omega
    rw [if_neg (by decide), if_neg (by decide), if_pos rfl, hg]
    ring

lemma cost_fold_pct_zero (rows : List MonthlyRow) (m : Nat) (carried : CarriedState) :
    ∀ (lines : List CostLine) (acc : Rat),
      (∀ l ∈ lines, l.calculation_type = "Percentage of Revenue") → rows.length < m →
      lines.foldl (costStep rows m carried) acc = acc := by
  intro lines
  induction lines with
  | nil => intro acc _ _; rfl
  | cons l ls ih =>
    intro acc hall h3
    rw [List.foldl_cons, costStep_pct_out_of_range l rows m carried acc
      (hall l (List.mem_cons_self l ls)) h3]
    exact ih acc (fun x hx => hall x (List.mem_cons_of_mem l hx)) h3

/-- C1 (amended): a "Percentage of Revenue" cost line contributes 0, not
current-month revenue × percentage: when the cost pass for month m runs,
only m−1 rows exist, so the positional lookup's length guard fails. -/
theorem c1_percentage_cost_amended :
    (∀ (line : CostLine) (rows : List MonthlyRow) (m : Nat) (carried : CarriedState) (acc : Rat),
      line.cost_type ≠ "" → line.calculation_type = "Percentage of Revenue" →
      rows.length < m → costStep rows m carried acc line = acc) ∧
    (∀ d : FinancialProjection,
      (∀ l ∈ d.cost_assumptions, l.calculation_type = "Percentage of Revenue") →
      ∀ r ∈ (calculate_projections d).monthly_projections, r.cost_of_revenue = 0) := by
  constructor
  · intro line rows m carried acc _ h2 h3
    exact costStep_pct_out_of_range line rows m carried acc h2 h3
  · intro d hall r hr
    have key : ∀ (n m : Nat) (st : EngineState),
        st.rows.length + 1 = m → (∀ s ∈ st.rows, s.cost_of_revenue = 0) →
        ∀ s ∈ (runMonths d m n st).rows, s.cost_of_revenue = 0 := by
      intro n
      induction n with
      | zero => intro m st _ hz; exact hz
      | succ k ih =>
        intro m st hlen hz
        show ∀ s ∈ (runMonths d (m + 1) k (monthStep d st m)).rows, s.cost_of_revenue = 0
        apply ih (m + 1) (monthStep d st m)
        · rw [monthStep_rows]
          simp
          omega
        · intro s hs
          rw [monthStep_rows] at hs
          rcases List.mem_append.mp hs with hs | hs
          · exact hz s hs
          · rw [List.mem_singleton] at hs
            subst hs
            have hrow : (monthRow d st m).cost_of_revenue =
                calculate_monthly_cost d st.rows m ((m - 1) / 12 + 1) ((m - 1) % 12 + 1)
                  (calculate_monthly_revenue d m ((m - 1) / 12 + 1) ((m - 1) % 12 + 1)
                    st.carried).2 := rfl
            rw [hrow]
            exact cost_fold_pct_zero st.rows m _ d.cost_assumptions 0 hall (by omega)
    rw [calc_rows] at hr
    exact key (pyOrNat d.projection_years 3 * 12) 1 (initState d) rfl
      (fun s hs => absurd hs (List.not_mem_nil s)) r hr

/-- Witness for the amended C1. -/
theorem c1_percentage_cost_amended_witness :
    costStep [] 1 (fun _ => 0) 7 c1CostLine = 7 ∧
    ((calculate_projections c1Doc).monthly_projections.getD 0 c3Dummy).cost_of_revenue = 0 :=
  ⟨c1_percentage_cost_amended.1 c1CostLine [] 1 (fun _ => 0) 7 (by decide) rfl (by decide),
   c1_percentage_cost_amended.2 c1Doc (by decide)
     ((calculate_projections c1Doc).monthly_projections.getD 0 c3Dummy) (by decide)⟩
